import Mathlib

/-
Verification of the Heartflow proactive-reply decision engine
(shallow embedding of src/main.py over exact rational arithmetic).

Python floats are modelled as rationals: every constant appearing in the
source is an exactly representable decimal, and all claims under test are
about exact thresholds, clamps and piecewise-linear formulas, none of which
depend on rounding of binary floating point at the tested points.
-/

set_option autoImplicit false

namespace Heartflow

/-- Weight set over the five judge dimensions, as read from the plugin
configuration (source: the weights and fav_weights dictionaries built in
HeartflowPlugin init, src/main.py lines 133-148). -/
structure Weights where
  relevance : ℚ
  willingness : ℚ
  social : ℚ
  timing : ℚ
  continuity : ℚ
deriving DecidableEq

/-- Sum of the five weights, mirroring sum of the weight dictionary values. -/
def Weights.total (w : Weights) : ℚ :=
  w.relevance + w.willingness + w.social + w.timing + w.continuity

/-- Normalization applied to the judge weight set in the constructor
(src/main.py lines 149-155): when the sum differs from 1 by more than 1e-6,
every weight is divided by the sum; otherwise the weights are left as is. -/
def normalize_weights (w : Weights) : Weights :=
  let s := w.total
  if |s - 1.0| > 0.000001 then
    { relevance := w.relevance / s
      willingness := w.willingness / s
      social := w.social / s
      timing := w.timing / s
      continuity := w.continuity / s }
  else w

/-- The judge (reply-decision) weight set produced at construction:
the configured values pass through the sum check and normalization. -/
def init_judge_weights (raw : Weights) : Weights := normalize_weights raw

/-- The affinity (favorability) weight set produced at construction:
the source stores the configured values directly (src/main.py lines
133-139); no sum check or normalization is applied to them. -/
def init_fav_weights (raw : Weights) : Weights := raw

/-- Parsed structured output of the judge model: the five dimension scores
plus the optional reasoning text (src/main.py lines 439-446). -/
structure JudgeData where
  relevance : ℚ
  willingness : ℚ
  social : ℚ
  timing : ℚ
  continuity : ℚ
  reasoning : String
deriving DecidableEq

/-- Result of one judgment call (the JudgeResult dataclass,
src/main.py lines 20-32; the related_messages list is always empty
in every constructed result and is omitted). -/
structure JudgeResult where
  relevance : ℚ
  willingness : ℚ
  social : ℚ
  timing : ℚ
  continuity : ℚ
  reasoning : String
  should_reply : Bool
  confidence : ℚ
  overall_score : ℚ
deriving DecidableEq

/-- Plugin configuration after construction (fields read in the
HeartflowPlugin init from the config dictionary; weights and fav_weights
hold the constructed weight sets). -/
structure Config where
  judge_provider_name : String
  reply_threshold : ℚ
  energy_decay_rate : ℚ
  energy_recovery_rate : ℚ
  context_messages_count : ℕ
  max_buffer_size : ℕ
  enable_favorability : Bool
  enable_global_favorability : Bool
  whitelist_enabled : Bool
  chat_whitelist : List String
  favorability_impact_strength : ℚ
  favorability_decay_daily : ℚ
  initial_favorability : ℚ
  judge_include_reasoning : Bool
  weights : Weights
  fav_weights : Weights
deriving DecidableEq

/-- Configuration built from the source defaults (the default value of each
config.get call in the constructor), with no judge provider configured. -/
def default_config : Config :=
  { judge_provider_name := ""
    reply_threshold := 0.6
    energy_decay_rate := 0.1
    energy_recovery_rate := 0.02
    context_messages_count := 5
    max_buffer_size := 50
    enable_favorability := false
    enable_global_favorability := false
    whitelist_enabled := false
    chat_whitelist := []
    favorability_impact_strength := 1.0
    favorability_decay_daily := 1.0
    initial_favorability := 10.0
    judge_include_reasoning := true
    weights := { relevance := 0.25, willingness := 0.2, social := 0.2, timing := 0.15, continuity := 0.2 }
    fav_weights := { relevance := 0.4, willingness := 0.05, social := 0.3, timing := 0.05, continuity := 0.2 } }

/-- Default configuration with a judge provider name configured. -/
def cfg_with_provider : Config :=
  { default_config with judge_provider_name := "judge" }

/-- A successfully parsed judge response scoring 8 on every dimension. -/
def good_data : JudgeData :=
  { relevance := 8, willingness := 8, social := 8, timing := 8, continuity := 8, reasoning := "ok" }

/-- Reply probability derived from favorability
(the _calculate_reply_probability method, src/main.py lines 1010-1034). -/
def calculate_reply_probability (enable : Bool) (impact fav : ℚ) : ℚ :=
  if enable = false then 1.0
  else max 0.0 (min 1.0 (1.0 - (1.0 - fav / 100.0) * impact))

/-- Threshold check followed by the probabilistic favorability gate
(src/main.py lines 457-468): if the overall score meets the threshold,
the reply probability is computed and the decision is whether the random
roll is at most that probability; otherwise no reply, with the probability
left at its initial value 1.0. Returns (should_reply, reply_probability). -/
def judge_decision (enable : Bool) (impact threshold overall fav draw : ℚ) : Bool × ℚ :=
  if overall ≥ threshold then
    let p := calculate_reply_probability enable impact fav
    (decide (draw ≤ p), p)
  else (false, 1.0)

/-- JudgeResult built on the parse-success path of _do_judge
(src/main.py lines 441-486): weighted overall score over 10, threshold and
probability gate, confidence equal to the overall score. -/
def make_judge_result (w : Weights) (enable_fav : Bool)
    (impact threshold fav draw : ℚ) (include_reasoning : Bool)
    (jd : JudgeData) : JudgeResult :=
  let overall := (jd.relevance * w.relevance + jd.willingness * w.willingness +
    jd.social * w.social + jd.timing * w.timing + jd.continuity * w.continuity) / 10.0
  { relevance := jd.relevance
    willingness := jd.willingness
    social := jd.social
    timing := jd.timing
    continuity := jd.continuity
    reasoning := if include_reasoning then jd.reasoning else ""
    should_reply := (judge_decision enable_fav impact threshold overall fav draw).1
    confidence := overall
    overall_score := overall }

/-- Fail-closed JudgeResult carrying only a diagnostic reason: every field
keeps its dataclass default and should_reply is false (the JudgeResult
constructed on each failure path of _do_judge). -/
def fail_judge (reason : String) : JudgeResult :=
  { relevance := 0, willingness := 0, social := 0, timing := 0, continuity := 0
    reasoning := reason, should_reply := false, confidence := 0, overall_score := 0 }

/-- The _do_judge decision pipeline (src/main.py lines 294-495).
provider_found models whether get_provider_by_id returns a provider;
attempts is the sequence of parse outcomes the judge model would produce
on successive calls (none = the completion is not valid JSON). The source
makes exactly one model call and one parse attempt, so only the head of
the sequence is ever consulted; fav is the favorability of the sender and
draw the uniform random roll. -/
def do_judge (cfg : Config) (provider_found : Bool)
    (attempts : List (Option JudgeData)) (fav draw : ℚ) : JudgeResult :=
  if cfg.judge_provider_name = "" then fail_judge "提供商未配置"
  else if provider_found = false then fail_judge "提供商不存在"
  else
    match attempts.headD none with
    | none => fail_judge "JSON解析失败"
    | some jd =>
        make_judge_result cfg.weights cfg.enable_favorability
          cfg.favorability_impact_strength cfg.reply_threshold fav draw
          cfg.judge_include_reasoning jd

/-- Weighted quality score over the normalized (0-1) judge dimensions,
using the affinity weight set (src/main.py lines 884-898). -/
def quality_score (fw : Weights) (jr : JudgeData) : ℚ :=
  (jr.relevance / 10.0) * fw.relevance +
  (jr.social / 10.0) * fw.social +
  (jr.continuity / 10.0) * fw.continuity +
  (jr.willingness / 10.0) * fw.willingness +
  (jr.timing / 10.0) * fw.timing

/-- Five-segment piecewise-linear map from quality score to favorability
delta (src/main.py lines 900-916). -/
def fav_delta_base (q : ℚ) : ℚ :=
  if q > 0.8 then 2.0 + (q - 0.8) / 0.2 * 1.0
  else if q > 0.6 then 0.8 + (q - 0.6) / 0.2 * 1.2
  else if q > 0.4 then -1.0 + (q - 0.4) / 0.2 * 1.8
  else if q > 0.2 then -2.5 + (q - 0.2) / 0.2 * 1.5
  else -5.0 + q / 0.2 * 2.5

/-- Outcome correction applied to the delta (src/main.py lines 918-925):
plus 0.3 when the bot replied, minus 0.2 when it did not reply although the
quality score exceeds 0.5, otherwise zero. -/
def fav_outcome_adjust (q : ℚ) (did_reply : Bool) : ℚ :=
  if did_reply then 0.3 else if q > 0.5 then -0.2 else 0

/-- Quality-to-delta map of _calculate_favorability_change after the
quality score is computed: piecewise-linear base, outcome correction,
then the clamp to the range -5 to 5 (src/main.py lines 900-928). -/
def fav_delta_map (q : ℚ) (did_reply : Bool) : ℚ :=
  max (-5.0) (min 5.0 (fav_delta_base q + fav_outcome_adjust q did_reply))

/-- The _calculate_favorability_change method (src/main.py lines 879-928):
zero when the favorability system is disabled, otherwise the delta map
applied to the weighted quality score. -/
def calculate_favorability_change (enable : Bool) (fw : Weights)
    (jr : JudgeData) (did_reply : Bool) : ℚ :=
  if enable = false then 0.0
  else fav_delta_map (quality_score fw jr) did_reply

/-- Spec-side base map: linear interpolation over each row of the table in
section 4.4 of the spec, written directly from the quality and delta range
endpoints of that table. -/
def compute_delta_spec_base (q : ℚ) : ℚ :=
  if q > 0.8 then 2.0 + (q - 0.8) / (1.0 - 0.8) * (3.0 - 2.0)
  else if q > 0.6 then 0.8 + (q - 0.6) / (0.8 - 0.6) * (2.0 - 0.8)
  else if q > 0.4 then -1.0 + (q - 0.4) / (0.6 - 0.4) * (0.8 - (-1.0))
  else if q > 0.2 then -2.5 + (q - 0.2) / (0.4 - 0.2) * ((-1.0) - (-2.5))
  else -5.0 + (q - 0.0) / (0.2 - 0.0) * ((-2.5) - (-5.0))

/-- Spec-side computeDelta: table interpolation, then the outcome
correction of plus 0.3 on reply and minus 0.2 on no reply with quality
above 0.5, then the clamp to the interval from -5.0 to 5.0, exactly as
worded in section 4.4 of the spec. -/
def compute_delta_spec (q : ℚ) (did_reply : Bool) : ℚ :=
  max (-5.0) (min 5.0
    (if did_reply then compute_delta_spec_base q + 0.3
     else if q > 0.5 then compute_delta_spec_base q - 0.2
     else compute_delta_spec_base q))

/-- Per-conversation chat state (the ChatState dataclass, src/main.py
lines 39-57); the user maps are modelled as association lists. -/
structure ChatState where
  energy : ℚ
  last_reply_time : ℚ
  last_reset_date : String
  total_messages : ℕ
  total_replies : ℕ
  user_favorability : List (String × ℚ)
  user_interaction_count : List (String × ℕ)
  last_favorability_decay : String
deriving DecidableEq

/-- Freshly constructed ChatState with all dataclass defaults. -/
def ChatState.new : ChatState :=
  { energy := 1.0, last_reply_time := 0.0, last_reset_date := ""
    total_messages := 0, total_replies := 0
    user_favorability := [], user_interaction_count := []
    last_favorability_decay := "" }

/-- Mutable plugin stores touched by the state methods: the per-chat state
dictionary and the two global favorability dictionaries. -/
structure PluginState where
  chat_states : List (String × ChatState)
  global_favorability : List (String × ℚ)
  global_interaction_count : List (String × ℕ)
deriving DecidableEq

/-- Dictionary lookup on an association list. -/
def alookup {α : Type} : List (String × α) → String → Option α
  | [], _ => none
  | (k, v) :: rest, key => if k = key then some v else alookup rest key

/-- Dictionary write on an association list: replaces the value under an
existing key, appends the pair otherwise. -/
def aset {α : Type} : List (String × α) → String → α → List (String × α)
  | [], key, v => [(key, v)]
  | (k, w) :: rest, key, v =>
      if k = key then (k, v) :: rest else (k, w) :: aset rest key v

/-- Dictionary deletion on an association list. -/
def aerase {α : Type} : List (String × α) → String → List (String × α)
  | [], _ => []
  | (k, w) :: rest, key =>
      if k = key then aerase rest key else (k, w) :: aerase rest key

/-- One favorability value after the daily decay toward 50
(src/main.py lines 986-996): values above 50 lose the smaller of their
distance to 50 and 1.5 times the daily rate, values below 50 gain the
smaller of their distance to 50 and 2 times the daily rate. -/
def decay_one (rate v : ℚ) : ℚ :=
  if v > 50 then v - min (v - 50) (rate * 1.5)
  else if v < 50 then v + min (50 - v) (rate * 2.0)
  else v

/-- Daily date reset of a chat state (src/main.py lines 747-750): when the
stored date differs from today, the date advances and energy recovers by
0.2 up to the 1.0 ceiling. -/
def tick_date (today : String) (st : ChatState) : ChatState :=
  if st.last_reset_date ≠ today then
    { st with last_reset_date := today, energy := min 1.0 (st.energy + 0.2) }
  else st

/-- Chat state after the local part of _apply_favorability_decay, with the
decay date advanced to today (src/main.py lines 754, 986-996). -/
def decay_state (rate : ℚ) (today : String) (st : ChatState) : ChatState :=
  { st with
    last_favorability_decay := today
    user_favorability := st.user_favorability.map (fun p => (p.1, decay_one rate p.2)) }

/-- The _get_chat_state method (src/main.py lines 738-757): get or create
the state for the chat, apply the daily date reset, and, when favorability
is enabled and the decay date is stale, run the daily favorability decay
(local map, and the global map when global favorability is enabled).
Returns the resulting state together with the updated stores. -/
def get_chat_state (cfg : Config) (today : String) (ps : PluginState)
    (chat_id : String) : ChatState × PluginState :=
  let st0 := (alookup ps.chat_states chat_id).getD ChatState.new
  let st1 := tick_date today st0
  if cfg.enable_favorability = true ∧ st1.last_favorability_decay ≠ today then
    let st2 := decay_state cfg.favorability_decay_daily today st1
    let g :=
      if cfg.enable_global_favorability = true then
        ps.global_favorability.map (fun p => (p.1, decay_one cfg.favorability_decay_daily p.2))
      else ps.global_favorability
    (st2, { chat_states := aset ps.chat_states chat_id st2
            global_favorability := g
            global_interaction_count := ps.global_interaction_count })
  else
    (st1, { ps with chat_states := aset ps.chat_states chat_id st1 })

/-- The _get_user_favorability method (src/main.py lines 839-857): the
initial value when the system is disabled; otherwise the global record when
global favorability applies (white-list permitting) and the user has one;
otherwise the local value from the chat state, defaulting to the initial
value. Returns the value together with the stores as left by the
_get_chat_state call on the local path. -/
def get_user_favorability (cfg : Config) (today : String) (ps : PluginState)
    (chat_id user_id : String) : ℚ × PluginState :=
  if cfg.enable_favorability = false then (cfg.initial_favorability, ps)
  else
    let use_global := cfg.enable_global_favorability = true ∧
      (cfg.whitelist_enabled = false ∨
        (cfg.chat_whitelist ≠ [] ∧ chat_id ∈ cfg.chat_whitelist))
    match (if use_global then alookup ps.global_favorability user_id else none) with
    | some g => (g, ps)
    | none =>
        let r := get_chat_state cfg today ps chat_id
        ((alookup r.1.user_favorability user_id).getD cfg.initial_favorability, r.2)

/-- The heartflow_reset admin command (src/main.py lines 1380-1389):
deletes the whole ChatState entry of the conversation from the chat state
dictionary; nothing else is touched. -/
def heartflow_reset (ps : PluginState) (chat_id : String) : PluginState :=
  { ps with chat_states := aerase ps.chat_states chat_id }

/-- Configuration with the favorability system enabled, used at concrete
inputs of the reset analysis. -/
def cfg_fav : Config := { default_config with enable_favorability := true }

/-- Concrete chat state holding one tracked user at favorability 80, with
both daily dates already set to the calendar date "D". -/
def st_example : ChatState :=
  { ChatState.new with
    user_favorability := [("u", 80)]
    user_interaction_count := [("u", 3)]
    last_reset_date := "D"
    last_favorability_decay := "D" }

/-- Concrete plugin stores holding only the conversation "g". -/
def ps_example : PluginState :=
  { chat_states := [("g", st_example)], global_favorability := [], global_interaction_count := [] }

/-- Operations that touch the energy of a conversation: the daily reset
inside _get_chat_state, the active-reply update of _update_active_state
(src/main.py line 1299) and the passive update of _update_passive_state
(src/main.py line 1312). -/
inductive EnergyOp
  | dailyTick
  | activeReply
  | passive
deriving DecidableEq

/-- Energy after one operation. -/
def step_energy (cfg : Config) : EnergyOp → ℚ → ℚ
  | EnergyOp.dailyTick, e => min 1.0 (e + 0.2)
  | EnergyOp.activeReply, e => max 0.1 (e - cfg.energy_decay_rate)
  | EnergyOp.passive, e => min 1.0 (e + cfg.energy_recovery_rate)

/-- Energy after a sequence of operations. -/
def run_energy (cfg : Config) (ops : List EnergyOp) (e : ℚ) : ℚ :=
  ops.foldl (fun acc op => step_energy cfg op acc) e

/-- One buffered message (src/main.py lines 1232-1236). -/
structure BufferedMessage where
  role : String
  content : String
  timestamp : ℚ
deriving DecidableEq

/-- One context entry handed to a model. -/
structure CtxMessage where
  role : String
  content : String
deriving DecidableEq

/-- Python tail slice, written list[-n:]: the last n elements when n is at
least 1 (all of them when fewer exist), and the whole list when n = 0,
because -0 is 0 in Python. -/
def python_tail {α : Type} (n : ℕ) (l : List α) : List α :=
  if n = 0 then l else l.drop (l.length - n)

/-- The _record_message method (src/main.py lines 1227-1240): append the
message, then, when the buffer exceeds the configured cap, keep only the
tail slice of cap elements. -/
def record_message (cap : ℕ) (buf : List BufferedMessage)
    (m : BufferedMessage) : List BufferedMessage :=
  let b := buf ++ [m]
  if cap < b.length then python_tail cap b else b

/-- Role label prefixes added for the judge model
(src/main.py lines 1265-1276). -/
def label_message (add_labels : Bool) (role content : String) : String :=
  if add_labels then
    (if role = "user" then "[群友消息] " ++ content else "[我的回复] " ++ content)
  else content

/-- The _get_recent_contexts method (src/main.py lines 1242-1286): empty
for an empty buffer; otherwise the last context_messages_count entries,
keeping those with role user or assistant and non-empty content, with the
optional role labels applied. -/
def get_recent_contexts (n : ℕ) (add_labels : Bool)
    (buf : List BufferedMessage) : List CtxMessage :=
  if buf = [] then []
  else
    let recent := if n < buf.length then python_tail n buf else buf
    recent.filterMap (fun m =>
      if (m.role = "user" ∨ m.role = "assistant") ∧ m.content ≠ "" then
        some { role := m.role, content := label_message add_labels m.role m.content }
      else none)

/-- Head of the one-element prefix of an attempt sequence. -/
lemma headD_take_one {α : Type} (l : List (Option α)) :
    (l.take 1).headD none = l.headD none := by
  cases l <;> rfl

/-- C1: whenever the judge provider is not configured, the provider cannot
be found, or the model output never parses as the required structured
object, the JudgeResult returned by the judgment attempt has
should_reply = false. -/
theorem judge_fail_closed (cfg : Config) (found : Bool)
    (attempts : List (Option JudgeData)) (fav draw : ℚ)
    (h : cfg.judge_provider_name = "" ∨ found = false ∨ attempts.headD none = none) :
    (do_judge cfg found attempts fav draw).should_reply = false := by
  unfold do_judge
  by_cases h1 : cfg.judge_provider_name = ""
  · rw [if_pos h1]; rfl
  · rw [if_neg h1]
    by_cases h2 : found = false
    · rw [if_pos h2]; rfl
    · rw [if_neg h2]
      have h3 : attempts.headD none = none := by
        rcases h with h | h | h
        · exact absurd h h1
        · exact absurd h h2
        · exact h
      rw [h3]
      rfl

/-- C1 witness: with no provider configured the judgment attempt does not
decide to reply. -/
theorem judge_fail_closed_witness :
    (do_judge default_config true [] 10 0).should_reply = false :=
  judge_fail_closed default_config true [] 10 0 (Or.inl rfl)

/-- C2 counterexample: when the model output fails to parse on the first
attempt and would parse successfully on a second attempt, the engine still
returns a fail-closed result with should_reply = false, although the same
successfully parsed output returned on a first attempt yields
should_reply = true: no retry with any configured maximum attempt count
takes place. -/
theorem judge_retry_counterexample :
    (do_judge cfg_with_provider true [none, some good_data] 10 (1/2)).should_reply = false ∧
    (do_judge cfg_with_provider true [some good_data] 10 (1/2)).should_reply = true := by
  constructor
  · rfl
  · unfold do_judge
    rw [if_neg (show ¬cfg_with_provider.judge_provider_name = "" from by decide),
        if_neg (show ¬(true = false) from by decide)]
    simp only [List.headD_cons, make_judge_result, judge_decision,
      calculate_reply_probability, cfg_with_provider, default_config, good_data]
    norm_num

/-- C2 (amended): the judgment call makes exactly one parse attempt: when
the first parse fails it immediately returns a fail-closed result with
should_reply = false, when the first parse succeeds it returns the result
computed from the parsed scores, and the outcome never depends on any
attempt beyond the first. -/
theorem judge_single_attempt (cfg : Config) (found : Bool)
    (attempts : List (Option JudgeData)) (fav draw : ℚ)
    (hname : cfg.judge_provider_name ≠ "") (hfound : found = true) :
    (attempts.headD none = none →
      (do_judge cfg found attempts fav draw).should_reply = false) ∧
    (∀ jd : JudgeData, attempts.headD none = some jd →
      do_judge cfg found attempts fav draw =
        make_judge_result cfg.weights cfg.enable_favorability
          cfg.favorability_impact_strength cfg.reply_threshold fav draw
          cfg.judge_include_reasoning jd) ∧
    do_judge cfg found attempts fav draw =
      do_judge cfg found (attempts.take 1) fav draw := by
  have hf : ¬ (found = false) := by simp [hfound]
  refine ⟨?_, ?_, ?_⟩
  · intro h3
    unfold do_judge
    rw [if_neg hname, if_neg hf, h3]
    rfl
  · intro jd h3
    unfold do_judge
    rw [if_neg hname, if_neg hf, h3]
  · unfold do_judge
    rw [if_neg hname, if_neg hf, if_neg hname, if_neg hf, headD_take_one]

/-- C2 witness: with a failing first parse followed by a successful one,
the result coincides with the result on the one-element prefix of the
attempt sequence. -/
theorem judge_single_attempt_witness :
    do_judge cfg_with_provider true [none, some good_data] 10 (1/2) =
      do_judge cfg_with_provider true ([none, some good_data].take 1) 10 (1/2) :=
  (judge_single_attempt cfg_with_provider true [none, some good_data] 10 (1/2)
    (by decide) rfl).2.2

/-- C3 counterexample: with favorability enabled, affinity 0 and impact
strength 1.0, the computed reply probability is 0.0, yet at the draw value
0 — a possible value of the uniform draw in the interval from 0 inclusive
to 1 exclusive — the decision comparison draw ≤ probability holds and
should_reply is true. -/
theorem zero_affinity_draw_zero_replies :
    calculate_reply_probability true 1.0 0 = 0 ∧
    (judge_decision true 1.0 0.6 0.8 0 0).1 = true := by
  constructor
  · norm_num [calculate_reply_probability]
  · norm_num [judge_decision, calculate_reply_probability]

/-- C3 (amended): with favorability enabled, impact strength 1.0 and
affinity 0, the computed reply probability is 0.0 and, when the threshold
is met, should_reply is false for every strictly positive value of the
uniform random draw; only the draw value exactly 0 passes the
draw ≤ probability comparison. -/
theorem zero_affinity_positive_draw_no_reply (enable : Bool)
    (impact threshold overall fav draw : ℚ)
    (he : enable = true) (hi : impact = 1.0) (hf : fav = 0)
    (hm : threshold ≤ overall) (hd : 0 < draw) :
    calculate_reply_probability enable impact fav = 0 ∧
    (judge_decision enable impact threshold overall fav draw).1 = false := by
  subst he; subst hi; subst hf
  have hp : calculate_reply_probability true 1.0 0 = 0 := by
    norm_num [calculate_reply_probability]
  refine ⟨hp, ?_⟩
  simp only [judge_decision]
  rw [if_pos (show overall ≥ threshold from hm), hp]
  simp only [decide_eq_false_iff_not, not_le]
  exact hd

/-- C3 witness: at threshold 0.6, overall score 0.8, affinity 0, impact
strength 1.0 and draw one half, the probability is 0 and no reply is
decided. -/
theorem zero_affinity_no_reply_witness :
    calculate_reply_probability true 1.0 0 = 0 ∧
    (judge_decision true 1.0 0.6 0.8 0 (1/2)).1 = false :=
  zero_affinity_positive_draw_no_reply true 1.0 0.6 0.8 0 (1/2)
    rfl rfl rfl (by norm_num) (by norm_num)

/-- C9 counterexample: a configured affinity weight set summing to 2 is
stored at construction exactly as configured, so its weights do not sum to
1 within 1e-6: the affinity weight set is never auto-normalized. -/
theorem fav_weights_not_normalized :
    (init_fav_weights
      { relevance := 0.8, willingness := 0.1, social := 0.6, timing := 0.1, continuity := 0.4 }).total = 2 ∧
    ¬ |(init_fav_weights
      { relevance := 0.8, willingness := 0.1, social := 0.6, timing := 0.1, continuity := 0.4 }).total - 1| ≤ 0.000001 := by
  constructor <;> norm_num [init_fav_weights, Weights.total]

/-- C9 (amended): the reply-decision (judge) weight set is auto-normalized
at construction — whenever its configured sum is nonzero the constructed
weights sum to 1 within 1e-6 and preserve all pairwise ratios with the
configured weights — while the affinity weight set is stored exactly as
configured, without any normalization. -/
theorem judge_weights_normalized (w raw : Weights) (hs : w.total ≠ 0) :
    |(init_judge_weights w).total - 1| ≤ 0.000001 ∧
    (init_judge_weights w).relevance * w.willingness =
      (init_judge_weights w).willingness * w.relevance ∧
    (init_judge_weights w).relevance * w.social =
      (init_judge_weights w).social * w.relevance ∧
    (init_judge_weights w).relevance * w.timing =
      (init_judge_weights w).timing * w.relevance ∧
    (init_judge_weights w).relevance * w.continuity =
      (init_judge_weights w).continuity * w.relevance ∧
    init_fav_weights raw = raw := by
  unfold init_judge_weights normalize_weights
  by_cases h : |w.total - 1.0| > 0.000001
  · rw [if_pos h]
    refine ⟨?_, by ring, by ring, by ring, by ring, rfl⟩
    have hsum : w.relevance / w.total + w.willingness / w.total + w.social / w.total +
        w.timing / w.total + w.continuity / w.total = 1 := by
      rw [div_add_div_same, div_add_div_same, div_add_div_same, div_add_div_same]
      exact div_self hs
    show |(w.relevance / w.total + w.willingness / w.total + w.social / w.total +
        w.timing / w.total + w.continuity / w.total) - 1| ≤ 0.000001
    rw [hsum]
    norm_num
  · rw [if_neg h]
    push_neg at h
    refine ⟨?_, by ring, by ring, by ring, by ring, rfl⟩
    show |w.total - 1| ≤ 0.000001
    calc |w.total - 1| = |w.total - 1.0| := by norm_num
      _ ≤ 0.000001 := h

/-- C9 witness: a judge weight set summing to 2 is normalized at
construction to sum to 1 within 1e-6. -/
theorem judge_weights_normalized_witness :
    |(init_judge_weights
      { relevance := 2, willingness := 0, social := 0, timing := 0, continuity := 0 }).total - 1| ≤ 0.000001 :=
  (judge_weights_normalized
    { relevance := 2, willingness := 0, social := 0, timing := 0, continuity := 0 }
    default_config.fav_weights (by norm_num [Weights.total])).1

/-- Closed affine form of each segment of the quality-to-delta base map. -/
lemma fav_delta_base_closed (q : ℚ) :
    fav_delta_base q =
      if q > 0.8 then 5 * q - 2
      else if q > 0.6 then 6 * q - 2.8
      else if q > 0.4 then 9 * q - 4.6
      else if q > 0.2 then 7.5 * q - 4
      else 12.5 * q - 5 := by
  unfold fav_delta_base
  split_ifs <;> ring

/-- The base map is monotone non-decreasing. -/
lemma fav_delta_base_mono {q q' : ℚ} (h : q ≤ q') :
    fav_delta_base q ≤ fav_delta_base q' := by
  rw [fav_delta_base_closed, fav_delta_base_closed]
  split_ifs <;> linarith

/-- The base map grows at most 12.5 times as fast as the quality score. -/
lemma fav_delta_base_lip {q q' : ℚ} (h : q ≤ q') :
    fav_delta_base q' - fav_delta_base q ≤ 12.5 * (q' - q) := by
  rw [fav_delta_base_closed, fav_delta_base_closed]
  split_ifs <;> linarith

/-- Two-sided 12.5-Lipschitz bound for the base map. -/
lemma fav_delta_base_abs (q q' : ℚ) :
    |fav_delta_base q - fav_delta_base q'| ≤ 12.5 * |q - q'| := by
  rcases le_total q q' with h | h
  · rw [abs_of_nonpos (sub_nonpos.mpr h),
      abs_of_nonpos (sub_nonpos.mpr (fav_delta_base_mono h))]
    have := fav_delta_base_lip h
    linarith
  · rw [abs_of_nonneg (sub_nonneg.mpr h),
      abs_of_nonneg (sub_nonneg.mpr (fav_delta_base_mono h))]
    have := fav_delta_base_lip h
    linarith

/-- The clamp to the interval from -5 to 5 is 1-Lipschitz. -/
lemma clamp_abs_le (a b : ℚ) :
    |max (-5.0) (min 5.0 a) - max (-5.0) (min 5.0 b)| ≤ |a - b| := by
  have h1 := abs_max_sub_max_le_max (-5.0 : ℚ) (min 5.0 a) (-5.0) (min 5.0 b)
  have h2 := abs_min_sub_min_le_max (5.0 : ℚ) a 5.0 b
  simp only [sub_self, abs_zero] at h1 h2
  have h1' := le_of_le_of_eq h1 (max_eq_right (abs_nonneg _))
  have h2' := le_of_le_of_eq h2 (max_eq_right (abs_nonneg _))
  exact h1'.trans h2'

/-- Where the outcome correction is locally constant, the full delta map
inherits the 12.5-Lipschitz bound of the base map. -/
lemma fav_delta_map_abs {q b : ℚ} (did : Bool)
    (hc : fav_outcome_adjust q did = fav_outcome_adjust b did) :
    |fav_delta_map q did - fav_delta_map b did| ≤ 12.5 * |q - b| := by
  unfold fav_delta_map
  calc |max (-5.0) (min 5.0 (fav_delta_base q + fav_outcome_adjust q did)) -
        max (-5.0) (min 5.0 (fav_delta_base b + fav_outcome_adjust b did))|
      ≤ |(fav_delta_base q + fav_outcome_adjust q did) -
         (fav_delta_base b + fav_outcome_adjust b did)| := clamp_abs_le _ _
    _ = |fav_delta_base q - fav_delta_base b| := by rw [hc]; congr 1; ring
    _ ≤ 12.5 * |q - b| := fav_delta_base_abs q b

/-- Where the outcome correction agrees at both points, the full delta map
is monotone non-decreasing. -/
lemma fav_delta_map_mono_of_adjust {q q' : ℚ} (did : Bool) (h : q ≤ q')
    (hc : fav_outcome_adjust q did = fav_outcome_adjust q' did) :
    fav_delta_map q did ≤ fav_delta_map q' did := by
  unfold fav_delta_map
  rw [hc]
  have hb := fav_delta_base_mono h
  exact max_le_max le_rfl (min_le_min le_rfl (by linarith))

/-- C5 counterexample: for the did-not-reply outcome the delta map is not
monotone non-decreasing in the quality score: the no-reply penalty of 0.2
applied only above quality 0.5 makes the delta at quality 0.51 strictly
smaller than the delta at quality 0.5. -/
theorem fav_delta_not_monotone :
    (1/2 : ℚ) < 51/100 ∧
    fav_delta_map (51/100) false < fav_delta_map (1/2) false := by
  constructor
  · norm_num
  · norm_num [fav_delta_map, fav_delta_base, fav_outcome_adjust]

/-- C5 (amended): the quality-to-delta map is continuous at the four
segment boundaries 0.2, 0.4, 0.6 and 0.8 for each fixed outcome flag; it
is monotone non-decreasing in the quality score when the agent replied,
and when it did not reply it is monotone non-decreasing on each side of
quality 0.5, the only discontinuity being the downward no-reply penalty
step of 0.2 at quality 0.5. -/
theorem fav_delta_continuity_and_monotonicity (did : Bool) (b ε q q' : ℚ)
    (hb : b = 0.2 ∨ b = 0.4 ∨ b = 0.6 ∨ b = 0.8) (hε : 0 < ε) (hqq : q ≤ q') :
    (∃ δ : ℚ, 0 < δ ∧ ∀ x : ℚ, |x - b| < δ →
      |fav_delta_map x did - fav_delta_map b did| < ε) ∧
    fav_delta_map q true ≤ fav_delta_map q' true ∧
    (q' ≤ 0.5 ∨ 0.5 < q → fav_delta_map q false ≤ fav_delta_map q' false) := by
  refine ⟨⟨min (1/10) (ε/13), lt_min (by norm_num) (by positivity), ?_⟩, ?_, ?_⟩
  · intro x hx
    have hx1 : |x - b| < 1/10 := lt_of_lt_of_le hx (min_le_left _ _)
    have hx2 : |x - b| < ε/13 := lt_of_lt_of_le hx (min_le_right _ _)
    obtain ⟨hxl, hxr⟩ := abs_lt.mp hx1
    have hc : fav_outcome_adjust x did = fav_outcome_adjust b did := by
      cases did
      · unfold fav_outcome_adjust
        rcases hb with rfl | rfl | rfl | rfl
        · rw [if_neg (show ¬((0.2:ℚ) > 0.5) from by norm_num),
            if_neg (show ¬(x > 0.5) from by rw [not_lt]; linarith)]
        · rw [if_neg (show ¬((0.4:ℚ) > 0.5) from by norm_num),
            if_neg (show ¬(x > 0.5) from by rw [not_lt]; linarith)]
        · rw [if_pos (show (0.6:ℚ) > 0.5 from by norm_num),
            if_pos (show x > 0.5 from by
              have : (0.6:ℚ) - 1/10 = 0.5 := by norm_num
              linarith)]
        · rw [if_pos (show (0.8:ℚ) > 0.5 from by norm_num),
            if_pos (show x > 0.5 from by
              have : (0.8:ℚ) - 1/10 > 0.5 := by norm_num
              linarith)]
      · rfl
    have hle := fav_delta_map_abs did hc
    have h13 : (12.5 : ℚ) * |x - b| < 12.5 * (ε/13) :=
      mul_lt_mul_of_pos_left hx2 (by norm_num)
    calc |fav_delta_map x did - fav_delta_map b did|
        ≤ 12.5 * |x - b| := hle
      _ < 12.5 * (ε/13) := h13
      _ ≤ ε := by linarith
  · exact fav_delta_map_mono_of_adjust true hqq rfl
  · intro hside
    apply fav_delta_map_mono_of_adjust false hqq
    unfold fav_outcome_adjust
    rcases hside with h | h
    · rw [if_neg (show ¬(q > 0.5) from not_lt.mpr (hqq.trans h)),
        if_neg (show ¬(q' > 0.5) from not_lt.mpr h)]
    · rw [if_pos (show q > 0.5 from h),
        if_pos (show q' > 0.5 from lt_of_lt_of_le h hqq)]

/-- C5 witness: with the replied outcome the delta map does not decrease
from quality 0.3 to quality 0.6. -/
theorem fav_delta_continuity_witness :
    fav_delta_map 0.3 true ≤ fav_delta_map 0.6 true :=
  (fav_delta_continuity_and_monotonicity true 0.2 1 0.3 0.6
    (Or.inl rfl) (by norm_num) (by norm_num)).2.1

/-- Each segment of the source base map agrees with the linear
interpolation read off the spec table. -/
lemma fav_base_eq_spec (q : ℚ) :
    fav_delta_base q = compute_delta_spec_base q := by
  unfold fav_delta_base compute_delta_spec_base
  split_ifs <;> ring

/-- The source quality-to-delta map and the spec computeDelta map agree
pointwise. -/
lemma fav_map_eq_spec (q : ℚ) (did : Bool) :
    fav_delta_map q did = compute_delta_spec q did := by
  have hb := fav_base_eq_spec q
  cases did
  · unfold fav_delta_map compute_delta_spec fav_outcome_adjust
    simp only [Bool.false_eq_true, if_false]
    split_ifs
    · rw [hb]; congr 2; ring
    · rw [hb]; congr 2; ring
  · unfold fav_delta_map compute_delta_spec fav_outcome_adjust
    simp only [if_true]
    rw [hb]

/-- C4: with the favorability system enabled, the affinity-delta
calculation equals the five-segment piecewise-linear interpolation table
of the spec applied to the weighted quality score, followed by the outcome
correction of plus 0.3 on reply and minus 0.2 on no reply with quality
above 0.5, with the final result clamped to the interval from -5.0
to 5.0. -/
theorem favorability_change_matches_spec (enable : Bool) (fw : Weights)
    (jr : JudgeData) (did : Bool) (h : enable = true) :
    calculate_favorability_change enable fw jr did =
      compute_delta_spec (quality_score fw jr) did := by
  subst h
  unfold calculate_favorability_change
  rw [if_neg (show ¬(true = false) from by simp)]
  exact fav_map_eq_spec _ _

/-- C4 witness: the equality holds at the default affinity weights, the
all-eights judge response and the replied outcome. -/
theorem favorability_change_matches_spec_witness :
    calculate_favorability_change true default_config.fav_weights good_data true =
      compute_delta_spec (quality_score default_config.fav_weights good_data) true :=
  favorability_change_matches_spec true default_config.fav_weights good_data true rfl

/-- Lookup after a dictionary write finds the written value. -/
lemma alookup_aset_self {α : Type} (l : List (String × α)) (k : String) (v : α) :
    alookup (aset l k v) k = some v := by
  induction l with
  | nil => simp [aset, alookup]
  | cons p rest ih =>
      obtain ⟨k', w⟩ := p
      by_cases h : k' = k
      · simp [aset, alookup, h]
      · simp [aset, alookup, h, ih]

/-- Writing back the value already stored under a key leaves the
dictionary unchanged. -/
lemma aset_self {α : Type} {l : List (String × α)} {k : String} {v : α}
    (h : alookup l k = some v) : aset l k v = l := by
  induction l with
  | nil => simp [alookup] at h
  | cons p rest ih =>
      obtain ⟨k', w⟩ := p
      by_cases hk : k' = k
      · simp only [alookup, if_pos hk, Option.some.injEq] at h
        simp [aset, hk, h]
      · simp only [alookup, if_neg hk] at h
        simp [aset, hk, ih h]

/-- Lookup of a deleted key fails. -/
lemma alookup_aerase_self {α : Type} (l : List (String × α)) (k : String) :
    alookup (aerase l k) k = none := by
  induction l with
  | nil => simp [aerase, alookup]
  | cons p rest ih =>
      obtain ⟨k', w⟩ := p
      by_cases h : k' = k
      · simp [aerase, h, ih]
      · simp [aerase, alookup, h, ih]

/-- Deletion of one key leaves every other key unchanged. -/
lemma alookup_aerase_other {α : Type} {k2 k : String} (h : k2 ≠ k)
    (l : List (String × α)) :
    alookup (aerase l k) k2 = alookup l k2 := by
  induction l with
  | nil => simp [aerase]
  | cons p rest ih =>
      obtain ⟨k', w⟩ := p
      by_cases hk : k' = k
      · subst hk
        have hne : ¬ k' = k2 := fun he => h he.symm
        simp [aerase, alookup, hne, ih]
      · by_cases hk2 : k' = k2
        · subst hk2
          simp [aerase, alookup, hk, ih]
        · simp [aerase, alookup, hk, hk2, ih]

/-- The date reset always leaves the stored date at today. -/
lemma tick_date_last (today : String) (st : ChatState) :
    (tick_date today st).last_reset_date = today := by
  unfold tick_date
  split_ifs with h
  · rfl
  · exact not_ne_iff.mp h

/-- The date reset is a no-op when the stored date is already today. -/
lemma tick_date_noop {today : String} {st : ChatState}
    (h : st.last_reset_date = today) : tick_date today st = st := by
  unfold tick_date
  rw [if_neg (not_ne_iff.mpr h)]

/-- The date reset does not touch the favorability decay date. -/
lemma tick_date_fav (today : String) (st : ChatState) :
    (tick_date today st).last_favorability_decay = st.last_favorability_decay := by
  unfold tick_date
  split_ifs <;> rfl

/-- The favorability decay step does not touch the reset date. -/
lemma decay_state_reset (rate : ℚ) (today : String) (st : ChatState) :
    (decay_state rate today st).last_reset_date = st.last_reset_date := rfl

/-- The favorability decay step stamps the decay date with today. -/
lemma decay_state_fav (rate : ℚ) (today : String) (st : ChatState) :
    (decay_state rate today st).last_favorability_decay = today := rfl

/-- After a _get_chat_state call the returned state is stored under the
chat key, its reset date is today, and, when favorability is enabled, its
favorability decay date is today as well. -/
lemma get_chat_state_stored (cfg : Config) (today : String) (ps : PluginState)
    (cid : String) :
    alookup (get_chat_state cfg today ps cid).2.chat_states cid =
      some (get_chat_state cfg today ps cid).1 ∧
    (get_chat_state cfg today ps cid).1.last_reset_date = today ∧
    (cfg.enable_favorability = true →
      (get_chat_state cfg today ps cid).1.last_favorability_decay = today) := by
  simp only [get_chat_state]
  by_cases hg : cfg.enable_favorability = true ∧
      (tick_date today ((alookup ps.chat_states cid).getD ChatState.new)).last_favorability_decay ≠ today
  · simp only [if_pos hg]
    exact ⟨alookup_aset_self _ _ _,
      (decay_state_reset _ _ _).trans (tick_date_last _ _),
      fun _ => decay_state_fav _ _ _⟩
  · simp only [if_neg hg]
    rcases not_and_or.mp hg with hg1 | hg2
    · exact ⟨alookup_aset_self _ _ _, tick_date_last _ _, fun he => absurd he hg1⟩
    · exact ⟨alookup_aset_self _ _ _, tick_date_last _ _, fun _ => not_ne_iff.mp hg2⟩

/-- A _get_chat_state call whose stored state already carries the current
dates returns the stored state and leaves the stores unchanged. -/
lemma get_chat_state_noop {cfg : Config} {today : String} {ps : PluginState}
    {cid : String} {st : ChatState}
    (h1 : alookup ps.chat_states cid = some st)
    (h2 : st.last_reset_date = today)
    (h3 : cfg.enable_favorability = true → st.last_favorability_decay = today) :
    get_chat_state cfg today ps cid = (st, ps) := by
  simp only [get_chat_state, h1, Option.getD_some, tick_date_noop h2]
  rw [if_neg (by rintro ⟨he, hne⟩; exact hne (h3 he))]
  rw [aset_self h1]

/-- C6: with a non-negative configured daily rate, the favorability decay
moves a value above 50 down by the smaller of its distance to 50 and 1.5
times the rate without crossing 50, moves a value below 50 up by the
smaller of its distance to 50 and 2 times the rate without crossing 50,
and running the daily tick a second time on the same calendar date for the
same conversation changes nothing. -/
theorem favorability_decay_props (cfg : Config) (today : String)
    (ps : PluginState) (cid : String) (v : ℚ)
    (h : 0 ≤ cfg.favorability_decay_daily) :
    (50 < v →
      decay_one cfg.favorability_decay_daily v =
        v - min (v - 50) (cfg.favorability_decay_daily * 1.5) ∧
      50 ≤ decay_one cfg.favorability_decay_daily v ∧
      decay_one cfg.favorability_decay_daily v ≤ v) ∧
    (v < 50 →
      decay_one cfg.favorability_decay_daily v =
        v + min (50 - v) (cfg.favorability_decay_daily * 2.0) ∧
      v ≤ decay_one cfg.favorability_decay_daily v ∧
      decay_one cfg.favorability_decay_daily v ≤ 50) ∧
    get_chat_state cfg today (get_chat_state cfg today ps cid).2 cid =
      get_chat_state cfg today ps cid := by
  refine ⟨?_, ?_, ?_⟩
  · intro hv
    unfold decay_one
    rw [if_pos hv]
    refine ⟨rfl, ?_, ?_⟩
    · have h1 := min_le_left (v - 50) (cfg.favorability_decay_daily * 1.5)
      linarith
    · have h1 : (0:ℚ) ≤ v - 50 := by linarith
      have h2 : (0:ℚ) ≤ cfg.favorability_decay_daily * 1.5 := by linarith
      have := le_min h1 h2
      linarith
  · intro hv
    unfold decay_one
    rw [if_neg (not_lt.mpr (le_of_lt hv)), if_pos hv]
    refine ⟨rfl, ?_, ?_⟩
    · have h1 : (0:ℚ) ≤ 50 - v := by linarith
      have h2 : (0:ℚ) ≤ cfg.favorability_decay_daily * 2.0 := by linarith
      have := le_min h1 h2
      linarith
    · have h1 := min_le_left (50 - v) (cfg.favorability_decay_daily * 2.0)
      linarith
  · obtain ⟨s1, s2, s3⟩ := get_chat_state_stored cfg today ps cid
    exact get_chat_state_noop s1 s2 s3

/-- C6 witness: at the default daily rate 1.0 a favorability of 60 decays
but stays at or above 50 and does not increase. -/
theorem favorability_decay_props_witness :
    50 ≤ decay_one default_config.favorability_decay_daily 60 ∧
    decay_one default_config.favorability_decay_daily 60 ≤ 60 :=
  ((favorability_decay_props default_config "D" ps_example "g" 60
    (by norm_num [default_config])).1 (by norm_num)).2

/-- One energy operation keeps the energy inside the closed interval from
0.1 to 1 when the configured rates are non-negative. -/
lemma step_energy_mem (cfg : Config) (hd : 0 ≤ cfg.energy_decay_rate)
    (hr : 0 ≤ cfg.energy_recovery_rate) (op : EnergyOp) {e : ℚ}
    (h1 : 0.1 ≤ e) (h2 : e ≤ 1) :
    0.1 ≤ step_energy cfg op e ∧ step_energy cfg op e ≤ 1 := by
  cases op
  · exact ⟨le_min (by norm_num) (by linarith),
      le_trans (min_le_left _ _) (by norm_num)⟩
  · exact ⟨le_max_left _ _, max_le (by norm_num) (by linarith)⟩
  · exact ⟨le_min (by norm_num) (by linarith),
      le_trans (min_le_left _ _) (by norm_num)⟩

/-- Any sequence of energy operations keeps the energy inside the closed
interval from 0.1 to 1. -/
lemma run_energy_mem (cfg : Config) (hd : 0 ≤ cfg.energy_decay_rate)
    (hr : 0 ≤ cfg.energy_recovery_rate) (ops : List EnergyOp) :
    ∀ {e : ℚ}, 0.1 ≤ e → e ≤ 1 →
      0.1 ≤ run_energy cfg ops e ∧ run_energy cfg ops e ≤ 1 := by
  induction ops with
  | nil => intro e h1 h2; exact ⟨h1, h2⟩
  | cons op rest ih =>
      intro e h1 h2
      have hs := step_energy_mem cfg hd hr op h1 h2
      have hrun := ih hs.1 hs.2
      simpa [run_energy, List.foldl] using hrun

/-- C7: with non-negative configured rates, the energy of a conversation
starting at its initial value 1 stays inside the closed interval from 0.1
to 1 under every sequence of daily ticks, active replies and passive
updates; with a strictly positive decay rate the active-reply update
strictly decreases any energy above the 0.1 floor and never goes below
the floor, with a strictly positive recovery rate the passive update
strictly increases any energy below the 1.0 ceiling, and at the floor and
ceiling the respective updates change nothing. -/
theorem energy_props (cfg : Config) (ops : List EnergyOp) (e : ℚ)
    (hd : 0 ≤ cfg.energy_decay_rate) (hr : 0 ≤ cfg.energy_recovery_rate) :
    (0.1 ≤ run_energy cfg ops 1 ∧ run_energy cfg ops 1 ≤ 1) ∧
    (0 < cfg.energy_decay_rate → 0.1 < e →
      step_energy cfg EnergyOp.activeReply e < e) ∧
    0.1 ≤ step_energy cfg EnergyOp.activeReply e ∧
    (0 < cfg.energy_recovery_rate → e < 1 →
      e < step_energy cfg EnergyOp.passive e) ∧
    step_energy cfg EnergyOp.activeReply 0.1 = 0.1 ∧
    step_energy cfg EnergyOp.passive 1 = 1 := by
  refine ⟨run_energy_mem cfg hd hr ops (by norm_num) (by norm_num),
    ?_, ?_, ?_, ?_, ?_⟩
  · intro hdp hep
    show max 0.1 (e - cfg.energy_decay_rate) < e
    exact max_lt hep (by linarith)
  · exact le_max_left _ _
  · intro hrp hep
    show e < min 1.0 (e + cfg.energy_recovery_rate)
    exact lt_min (by linarith) (by linarith)
  · show max 0.1 (0.1 - cfg.energy_decay_rate) = 0.1
    exact max_eq_left (by linarith)
  · show min 1.0 (1 + cfg.energy_recovery_rate) = 1
    rw [min_eq_left (by linarith)]
    norm_num

/-- C7 witness: at the default rates, energy starting at 1 remains inside
the interval after a tick, an active reply and a passive update. -/
theorem energy_props_witness :
    0.1 ≤ run_energy default_config
      [EnergyOp.dailyTick, EnergyOp.activeReply, EnergyOp.passive] 1 ∧
    run_energy default_config
      [EnergyOp.dailyTick, EnergyOp.activeReply, EnergyOp.passive] 1 ≤ 1 :=
  (energy_props default_config
    [EnergyOp.dailyTick, EnergyOp.activeReply, EnergyOp.passive] 0.5
    (by norm_num [default_config]) (by norm_num [default_config])).1

/-- C10 counterexample: with favorability enabled, a conversation holding
a user at affinity 80 reports affinity 80 before the clear-energy-state
reset and the initial value 10 afterwards: the reset destroys the per-user
affinity of the conversation rather than leaving it unchanged. -/
theorem reset_clears_local_affinity :
    (get_user_favorability cfg_fav "D" ps_example "g" "u").1 = 80 ∧
    (get_user_favorability cfg_fav "D" (heartflow_reset ps_example "g") "g" "u").1 = 10 ∧
    (80 : ℚ) ≠ 10 := by
  refine ⟨?_, ?_, by norm_num⟩
  · simp only [get_user_favorability, cfg_fav, default_config, heartflow_reset,
      ps_example, st_example, ChatState.new, get_chat_state, tick_date, decay_state,
      decay_one, alookup, aset, aerase]
    norm_num
  · simp only [get_user_favorability, cfg_fav, default_config, heartflow_reset,
      ps_example, st_example, ChatState.new, get_chat_state, tick_date, decay_state,
      decay_one, alookup, aset, aerase]
    norm_num

/-- C10 (amended): the clear-energy-state reset deletes the entire
ChatState record of the conversation — including its local per-user
affinity and interaction-count maps, which are recreated at defaults on
the next access — while the states of all other conversations and the
global affinity and interaction maps are left unchanged. -/
theorem reset_scope (ps : PluginState) (cid cid2 : String) (h : cid2 ≠ cid) :
    alookup (heartflow_reset ps cid).chat_states cid = none ∧
    alookup (heartflow_reset ps cid).chat_states cid2 = alookup ps.chat_states cid2 ∧
    (heartflow_reset ps cid).global_favorability = ps.global_favorability ∧
    (heartflow_reset ps cid).global_interaction_count = ps.global_interaction_count :=
  ⟨alookup_aerase_self ps.chat_states cid,
   alookup_aerase_other h ps.chat_states, rfl, rfl⟩

/-- C10 witness: after resetting conversation g its ChatState entry is
gone while the stores of conversation h are looked up as before. -/
theorem reset_scope_witness :
    alookup (heartflow_reset ps_example "g").chat_states "g" = none ∧
    alookup (heartflow_reset ps_example "g").chat_states "h" =
      alookup ps_example.chat_states "h" :=
  ⟨(reset_scope ps_example "g" "h" (by decide)).1,
   (reset_scope ps_example "g" "h" (by decide)).2.1⟩

/-- One append step preserves the last-cap-elements shape of the buffer. -/
lemma record_message_target (cap : ℕ) (hcap : 1 ≤ cap)
    (msgs : List BufferedMessage) (x : BufferedMessage) :
    record_message cap
        (if msgs.length ≤ cap then msgs else msgs.drop (msgs.length - cap)) x =
      if (msgs ++ [x]).length ≤ cap then msgs ++ [x]
      else (msgs ++ [x]).drop ((msgs ++ [x]).length - cap) := by
  by_cases h1 : msgs.length + 1 ≤ cap
  · have h0 : msgs.length ≤ cap := by omega
    rw [if_pos h0, if_pos (show (msgs ++ [x]).length ≤ cap from by simp; omega)]
    unfold record_message
    rw [if_neg (show ¬ cap < (msgs ++ [x]).length from by simp; omega)]
  · rw [if_neg (show ¬ (msgs ++ [x]).length ≤ cap from by simp; omega)]
    by_cases h2 : msgs.length ≤ cap
    · rw [if_pos h2]
      unfold record_message
      rw [if_pos (show cap < (msgs ++ [x]).length from by simp; omega)]
      unfold python_tail
      rw [if_neg (show ¬ cap = 0 from by omega)]
    · rw [if_neg h2]
      have hdlen : (msgs.drop (msgs.length - cap)).length = cap := by
        rw [List.length_drop]; omega
      unfold record_message
      have hblen : (msgs.drop (msgs.length - cap) ++ [x]).length = cap + 1 := by
        simp [hdlen]
      rw [if_pos (show cap < (msgs.drop (msgs.length - cap) ++ [x]).length from by
        rw [hblen]; omega)]
      unfold python_tail
      rw [if_neg (show ¬ cap = 0 from by omega)]
      rw [hblen]
      have hone : cap + 1 - cap = 1 := by omega
      rw [hone]
      rw [List.drop_append_of_le_length (show 1 ≤ (msgs.drop (msgs.length - cap)).length from by
        rw [hdlen]; omega)]
      rw [List.drop_drop]
      rw [List.drop_append_of_le_length (show (msgs ++ [x]).length - cap ≤ msgs.length from by
        simp; omega)]
      have harith : msgs.length - cap + 1 = (msgs ++ [x]).length - cap := by
        simp; omega
      rw [harith]

/-- The buffer after any sequence of appends starting from empty is the
whole sequence when it fits the cap and its last cap elements otherwise. -/
lemma buffer_fold_eq (cap : ℕ) (hcap : 1 ≤ cap) (msgs : List BufferedMessage) :
    List.foldl (record_message cap) [] msgs =
      if msgs.length ≤ cap then msgs else msgs.drop (msgs.length - cap) := by
  induction msgs using List.reverseRecOn with
  | nil => simp
  | append_singleton msgs x ih =>
      rw [List.foldl_append]
      simp only [List.foldl]
      rw [ih]
      exact record_message_target cap hcap msgs x

/-- C8: with a cap of at least 1, the buffer length never exceeds the cap
after any number of appends and eviction is strictly FIFO — the buffer
always holds exactly the most recent messages in order, so appending four
messages with cap 3 leaves exactly the last three — and appending one
message with user or assistant role and non-empty content to an empty
buffer and requesting recent context with a positive count yields exactly
that single entry. -/
theorem buffer_props (cap n : ℕ) (msgs : List BufferedMessage)
    (m m1 m2 m3 m4 : BufferedMessage)
    (hcap : 1 ≤ cap) (hn : 1 ≤ n)
    (hrole : m.role = "user" ∨ m.role = "assistant") (hcontent : m.content ≠ "") :
    (List.foldl (record_message cap) [] msgs).length ≤ cap ∧
    List.foldl (record_message cap) [] msgs =
      (if msgs.length ≤ cap then msgs else msgs.drop (msgs.length - cap)) ∧
    List.foldl (record_message 3) [] [m1, m2, m3, m4] = [m2, m3, m4] ∧
    get_recent_contexts n false (record_message cap [] m) =
      [{ role := m.role, content := m.content }] := by
  refine ⟨?_, buffer_fold_eq cap hcap msgs, ?_, ?_⟩
  · rw [buffer_fold_eq cap hcap msgs]
    split_ifs with h
    · exact h
    · rw [List.length_drop]; omega
  · rw [buffer_fold_eq 3 (by norm_num) [m1, m2, m3, m4]]
    rw [if_neg (by simp)]
    simp
  · have hrec : record_message cap [] m = [m] := by
      unfold record_message
      rw [if_neg (show ¬ cap < ([] ++ [m] : List BufferedMessage).length from by
        simp; omega)]
      simp
    rw [hrec]
    simp only [get_recent_contexts]
    rw [if_neg (show ¬ ([m] = ([] : List BufferedMessage)) from by simp)]
    rw [if_neg (show ¬ n < [m].length from by simp; omega)]
    simp only [List.filterMap_cons, List.filterMap_nil]
    rw [if_pos ⟨hrole, hcontent⟩]
    simp [label_message]

/-- C8 witness: four concrete messages appended with cap 3 leave exactly
the last three. -/
theorem buffer_props_witness :
    List.foldl (record_message 3) []
      [{ role := "user", content := "M1", timestamp := 1 },
       { role := "user", content := "M2", timestamp := 2 },
       { role := "user", content := "M3", timestamp := 3 },
       { role := "user", content := "M4", timestamp := 4 }] =
      [{ role := "user", content := "M2", timestamp := 2 },
       { role := "user", content := "M3", timestamp := 3 },
       { role := "user", content := "M4", timestamp := 4 }] :=
  (buffer_props 3 5 []
    { role := "user", content := "x", timestamp := 0 }
    { role := "user", content := "M1", timestamp := 1 }
    { role := "user", content := "M2", timestamp := 2 }
    { role := "user", content := "M3", timestamp := 3 }
    { role := "user", content := "M4", timestamp := 4 }
    (by norm_num) (by norm_num) (Or.inl rfl) (by simp)).2.2.1

end Heartflow
